import Mathlib

/-!
Verification development for the clang reflection query engine
(src/include/clang/AST/Reflection.h, src/lib/AST/Reflection.cpp).

The C++ code is shallowly embedded: the pointer-linked clang AST becomes a
table of declarations keyed by numeric ids inside an `ASTContext`; `QualType`
values become numeric type nodes whose canonicalization data is supplied by
the context; the `bool` success channel plus `APValue &Result` out-parameter
of each query becomes a `QueryOutcome` value, with an explicit `crash`
constructor for the undefined-behaviour paths (null-pointer downcasts,
`llvm_unreachable`).
-/

namespace ClangReflection

/-- Formal linkage values consumed by `getLinkage` (Reflection.cpp:1003).
Clang linkage values other than these three trap in `getLinkage` and are not
populated by the model. -/
inductive FormalLinkage
  | NoLinkage
  | InternalLinkage
  | ExternalLinkage
deriving DecidableEq, Repr

/-- Access specifiers as stored on a clang `Decl` (`Decl::getAccess`). -/
inductive AccessSpecifier
  | AS_public
  | AS_private
  | AS_protected
  | AS_none
deriving DecidableEq, Repr

/-- Storage durations consumed by `getStorage` (Reflection.cpp:1049). -/
inductive StorageDuration
  | SD_FullExpression
  | SD_Automatic
  | SD_Thread
  | SD_Static
  | SD_Dynamic
deriving DecidableEq, Repr

/-- Clang template specialization kinds; `TSK_Undeclared` is the first
enumerator (numeric value 0), which is why `if (TemplateSpecializationKind
TSK = ...)` in the source tests for `TSK_Undeclared`. -/
inductive TemplateSpecializationKind
  | TSK_Undeclared
  | TSK_ImplicitInstantiation
  | TSK_ExplicitSpecialization
  | TSK_ExplicitInstantiationDeclaration
  | TSK_ExplicitInstantiationDefinition
deriving DecidableEq, Repr

/-- Tag kinds consumed by `getClassKind` (Reflection.cpp:1349). -/
inductive TagTypeKind
  | TTK_Struct
  | TTK_Class
  | TTK_Union
deriving DecidableEq, Repr

/-- A clang `QualType`: an opaque type node id.  Sugar (such as
`LocInfoType`, seen through by `getQualType`) is folded into the per-node
`TypeInfo` supplied by the `ASTContext`. -/
structure QualType where
  node : Nat
deriving DecidableEq, Repr

/-- Data carried by a `VarDecl` beyond the common `Decl` fields. -/
structure VarData where
  storage : StorageDuration
  isConstexpr : Bool
  hasDefinition : Bool
  isInline : Bool
  isStaticDataMember : Bool
  tsk : TemplateSpecializationKind
deriving DecidableEq, Repr

/-- Data carried by a `FunctionDecl` (and its method subclasses). -/
structure FunctionData where
  isConstexpr : Bool
  isNothrow : Bool
  hasDefinition : Bool
  isInlined : Bool
  isDeleted : Bool
  tsk : TemplateSpecializationKind
deriving DecidableEq, Repr

/-- Data carried by a `CXXMethodDecl` (and constructor, destructor,
conversion subclasses) beyond `FunctionData`. -/
structure MethodData where
  isStatic : Bool
  isVirtual : Bool
  isPure : Bool
  hasFinalAttr : Bool
  hasOverrideAttr : Bool
  isDefaulted : Bool
  isTrivial : Bool
  isExplicit : Bool
  isDefaultConstructor : Bool
  isCopyConstructor : Bool
  isMoveConstructor : Bool
  isCopyAssignmentOperator : Bool
  isMoveAssignmentOperator : Bool
deriving DecidableEq, Repr

/-- Data carried by a `CXXRecordDecl`. -/
structure ClassData where
  tagKind : TagTypeKind
  isInjectedClassName : Bool
  hasDefinition : Bool
  isPolymorphic : Bool
  isAbstract : Bool
  hasFinalAttr : Bool
  isEmpty : Bool
  tsk : TemplateSpecializationKind
deriving DecidableEq, Repr

/-- Data carried by an `EnumDecl`. -/
structure EnumData where
  isScoped : Bool
  isComplete : Bool
  tsk : TemplateSpecializationKind
deriving DecidableEq, Repr

/-- The declaration subkinds distinguished by the reflection engine.  The
clang class hierarchy is flattened: e.g. a `CXXConstructorDecl` is-a
`CXXMethodDecl` is-a `FunctionDecl` in clang, so the source dyn-cast chains
test constructors before methods before plain functions; here each decl
carries exactly one (most-derived) subkind and the chains become matches.
`otherDecl` stands for every remaining clang declaration subkind (none of
which has a traits encoder or is a declaration context in this model). -/
inductive DeclKind
  | varDecl (v : VarData)
  | fieldDecl (isMutable : Bool) (isBitField : Bool)
  | enumConstantDecl
  | cxxConstructorDecl (f : FunctionData) (m : MethodData)
  | cxxDestructorDecl (f : FunctionData) (m : MethodData)
  | cxxConversionDecl (f : FunctionData) (m : MethodData)
  | cxxMethodDecl (f : FunctionData) (m : MethodData)
  | functionDecl (f : FunctionData)
  | namespaceDecl (isInline : Bool)
  | translationUnitDecl
  | cxxRecordDecl (c : ClassData)
  | enumDecl (e : EnumData)
  | accessSpecDecl
  | otherDecl (tag : Nat)
deriving DecidableEq, Repr

/-- A clang `Decl`.  `did` is the pointer identity; `canonId` is the id of
`getCanonicalDecl()`; `ctxId` is the id of the declaration context
(`getDeclContext()`; the model conflates the lexical and semantic context,
which agree for all programs built here); `attrs` lists the expression types
of the attached `UserDefinedAttr`s in source order. -/
structure Decl where
  did : Nat
  kind : DeclKind
  ident : Option String
  linkage : FormalLinkage
  access : AccessSpecifier
  canonId : Nat
  ctxId : Option Nat
  attrs : List QualType
deriving DecidableEq, Repr

/-- Canonicalization data the `ASTContext` knows about one type node:
the canonical node (`ASTContext::getCanonicalType`), the canonical
unqualified node (`Type::getCanonicalTypeUnqualified`), the tag declaration
the type names if any (`Type::getAsTagDecl`, which looks through sugar), and
the rendered spelling (`QualType::getAsString` with tag keywords
suppressed). -/
structure TypeInfo where
  canonId : Nat
  unqualCanonId : Nat
  tagDecl : Option Decl
  typeName : String

/-- The borrowed program-model context: the program declarations (in
declaration order, which induces the `getNextDeclInContext` sibling chains)
and the per-node type information. -/
structure ASTContext where
  declTable : List Decl
  typeInfoOf : Nat → TypeInfo

/-- An expression as far as the engine inspects it: either a
`DeclRefExpr` naming a declaration or any other expression form. -/
inductive ExprNode
  | declRef (D : Decl)
  | otherExpr (eid : Nat)
deriving DecidableEq, Repr

/-- A `CXXBaseSpecifier`: the engine only reads its type. -/
structure CXXBaseSpecifier where
  baseType : QualType
deriving DecidableEq, Repr

/-- The reflection kinds of an `APValue` (`ReflectionKind`). -/
inductive ReflectionKind
  | RK_invalid
  | RK_type
  | RK_declaration
  | RK_expression
  | RK_base_specifier
deriving DecidableEq, Repr

/-- An `APValue` holding a reflection: the evaluated tagged union.  The
invalid alternative carries the optional diagnostic expression id
(`InvalidReflection::ErrorMessage`, possibly absent). -/
inductive APValueReflection
  | invalidRefl (errorMessage : Option Nat)
  | typeRefl (T : QualType)
  | declRefl (D : Decl)
  | exprRefl (E : ExprNode)
  | baseRefl (B : CXXBaseSpecifier)
deriving DecidableEq, Repr

/-- `APValue::getReflectionKind`. -/
def APValueReflection.getReflectionKind : APValueReflection → ReflectionKind
  | .invalidRefl _ => .RK_invalid
  | .typeRefl _ => .RK_type
  | .declRefl _ => .RK_declaration
  | .exprRefl _ => .RK_expression
  | .baseRefl _ => .RK_base_specifier

/-- The `Reflection` evaluation wrapper: the AST context, the reflected
value, and whether a diagnostic sink was supplied (`Diag != nullptr`). -/
structure Reflection where
  ctx : ASTContext
  ref : APValueReflection
  hasDiag : Bool

/-- The two diagnostics the engine can record. -/
inductive DiagKind
  | note_reflection_not_defined
  | note_reflection_query_unimplemented
deriving DecidableEq, Repr

/-- Outcome of one query evaluation: `ok` models `return true` with
`Result` set; `fail` models `return false`, carrying the diagnostic pushed
into the sink if one was recorded; `crash` models undefined behaviour
(null-pointer downcast, `llvm_unreachable`). -/
inductive QueryOutcome (α : Type)
  | ok (a : α)
  | fail (d : Option DiagKind)
  | crash
deriving DecidableEq, Repr

/-- `SuccessBool` (Reflection.cpp:28): set the result to a truth value. -/
def SuccessBool (_R : Reflection) (b : Bool) : QueryOutcome Bool := .ok b

/-- `SuccessTrue` (Reflection.cpp:33). -/
def SuccessTrue (R : Reflection) : QueryOutcome Bool := SuccessBool R true

/-- `SuccessFalse` (Reflection.cpp:37). -/
def SuccessFalse (R : Reflection) : QueryOutcome Bool := SuccessBool R false

/-- `Error` (Reflection.cpp:71): fail, pushing
`note_reflection_not_defined` when a diagnostic sink is present. -/
def Error {α : Type} (R : Reflection) : QueryOutcome α :=
  .fail (if R.hasDiag then some .note_reflection_not_defined else none)

/-- `ErrorUnimplemented` (Reflection.cpp:91): fail, pushing
`note_reflection_query_unimplemented` when a diagnostic sink is present. -/
def ErrorUnimplemented {α : Type} (R : Reflection) : QueryOutcome α :=
  .fail (if R.hasDiag then some .note_reflection_query_unimplemented else none)

/-- `Reflection::isInvalid`. -/
def Reflection.isInvalid (R : Reflection) : Bool :=
  R.ref.getReflectionKind == .RK_invalid

/-- `Reflection::isType`. -/
def Reflection.isType (R : Reflection) : Bool :=
  R.ref.getReflectionKind == .RK_type

/-- `Reflection::isDeclaration`. -/
def Reflection.isDeclaration (R : Reflection) : Bool :=
  R.ref.getReflectionKind == .RK_declaration

/-- `Reflection::isExpression`. -/
def Reflection.isExpression (R : Reflection) : Bool :=
  R.ref.getReflectionKind == .RK_expression

/-- `Reflection::isBase`. -/
def Reflection.isBase (R : Reflection) : Bool :=
  R.ref.getReflectionKind == .RK_base_specifier

/-- `getAsTypeDecl` (Reflection.cpp:99): for a type reflection, the tag
declaration the (sugar-stripped) type names, if any. -/
def getAsTypeDecl (R : Reflection) : Option Decl :=
  match R.ref with
  | .typeRefl T => (R.ctx.typeInfoOf T.node).tagDecl
  | _ => none

/-- `getEntityDecl` (Reflection.cpp:114): the declaration a `DeclRefExpr`
references; null for every other expression form. -/
def getEntityDecl (E : ExprNode) : Option Decl :=
  match E with
  | .declRef D => some D
  | .otherExpr _ => none

/-- `getReachableDecl` (Reflection.cpp:122): the declaration designated by
the reflection, either directly, as a tag type, or through a referencing
expression. -/
def getReachableDecl (R : Reflection) : Option Decl :=
  match getAsTypeDecl R with
  | some TD => some TD
  | none =>
    match R.ref with
    | .declRefl D => some D
    | .exprRefl E => getEntityDecl E
    | _ => none

/-- `getCanonicalType` (Reflection.cpp:159): the canonical type reflected
by `R` if `R` is a type reflection, null otherwise. -/
def getCanonicalType (R : Reflection) : Option QualType :=
  match R.ref with
  | .typeRefl T => some ⟨(R.ctx.typeInfoOf T.node).canonId⟩
  | _ => none

/-- `EqualTypes` (Reflection.cpp:1755): canonical types compared for
identity. -/
def EqualTypes (C : ASTContext) (A B : QualType) : Bool :=
  (C.typeInfoOf A.node).canonId == (C.typeInfoOf B.node).canonId

/-- `EqualDecls` (Reflection.cpp:1762): canonical declarations compared for
pointer identity. -/
def EqualDecls (A B : Decl) : Bool :=
  A.canonId == B.canonId

/-- `Reflection::Equal` (Reflection.cpp:1768): unequal kinds are unequal;
invalid reflections are mutually equal; types and declarations compare
canonically; the `default:` arm makes expression and base-specifier
reflections always unequal. -/
def Equal (C : ASTContext) (A B : APValueReflection) : Bool :=
  match A, B with
  | .invalidRefl _, .invalidRefl _ => true
  | .typeRefl a, .typeRefl b => EqualTypes C a b
  | .declRefl a, .declRefl b => EqualDecls a b
  | .exprRefl _, .exprRefl _ => false
  | .baseRefl _, .baseRefl _ => false
  | _, _ => false

/-- `getTemplateSpecializationKind` (Reflection.cpp:641): the shared
specialization-kind lookup, dispatching over record, variable, function and
enum declarations and using `TSK_Undeclared` as catch-all. -/
def getTemplateSpecializationKind (R : Reflection) : TemplateSpecializationKind :=
  match getReachableDecl R with
  | none => .TSK_Undeclared
  | some D =>
    match D.kind with
    | .cxxRecordDecl c => c.tsk
    | .varDecl v => v.tsk
    | .functionDecl f => f.tsk
    | .cxxMethodDecl f _ => f.tsk
    | .cxxConstructorDecl f _ => f.tsk
    | .cxxDestructorDecl f _ => f.tsk
    | .cxxConversionDecl f _ => f.tsk
    | .enumDecl e => e.tsk
    | _ => .TSK_Undeclared

/-- `isExplicitSpecialization` (Reflection.cpp:664).  The `if` condition
tests the kind against `TSK_Undeclared` (numeric 0). -/
def isExplicitSpecialization (R : Reflection) : QueryOutcome Bool :=
  match getTemplateSpecializationKind R with
  | .TSK_Undeclared => SuccessFalse R
  | TSK => SuccessBool R (TSK == .TSK_ExplicitSpecialization)

/-- `isImplicitInstantiation` (Reflection.cpp:671). -/
def isImplicitInstantiation (R : Reflection) : QueryOutcome Bool :=
  match getTemplateSpecializationKind R with
  | .TSK_Undeclared => SuccessFalse R
  | TSK => SuccessBool R (TSK == .TSK_ImplicitInstantiation)

/-- `isExplicitInstantiation` (Reflection.cpp:678). -/
def isExplicitInstantiation (R : Reflection) : QueryOutcome Bool :=
  match getTemplateSpecializationKind R with
  | .TSK_Undeclared => SuccessFalse R
  | TSK => SuccessBool R (TSK == .TSK_ExplicitInstantiationDeclaration
                       || TSK == .TSK_ExplicitInstantiationDefinition)

/-- `isClosureType` (Reflection.cpp:494): unimplemented placeholder. -/
def isClosureType (R : Reflection) : QueryOutcome Bool :=
  ErrorUnimplemented R

/-- `isDirectBase` (Reflection.cpp:686): unimplemented placeholder. -/
def isDirectBase (R : Reflection) : QueryOutcome Bool :=
  ErrorUnimplemented R

/-- `isVirtualBase` (Reflection.cpp:691): unimplemented placeholder. -/
def isVirtualBase (R : Reflection) : QueryOutcome Bool :=
  ErrorUnimplemented R

/-- `isFunctionParameter` (Reflection.cpp:696): unimplemented placeholder. -/
def isFunctionParameter (R : Reflection) : QueryOutcome Bool :=
  ErrorUnimplemented R

/-- `getThisRefType` (Reflection.cpp:1534): unimplemented placeholder. -/
def getThisRefType (R : Reflection) : QueryOutcome APValueReflection :=
  ErrorUnimplemented R

/-- `LinkageTrait` (Reflection.cpp:1000). -/
inductive LinkageTrait
  | LinkNone
  | LinkInternal
  | LinkExternal
deriving DecidableEq, Repr

/-- The numeric value of a `LinkageTrait` enumerator. -/
def LinkageTrait.toNat : LinkageTrait → Nat
  | .LinkNone => 0
  | .LinkInternal => 1
  | .LinkExternal => 2

/-- `getLinkage` (Reflection.cpp:1003). -/
def getLinkage (D : Decl) : LinkageTrait :=
  match D.linkage with
  | .NoLinkage => .LinkNone
  | .InternalLinkage => .LinkInternal
  | .ExternalLinkage => .LinkExternal

/-- `AccessTrait` (Reflection.cpp:1017). -/
inductive AccessTrait
  | AccessNone
  | AccessPublic
  | AccessPrivate
  | AccessProtected
deriving DecidableEq, Repr

/-- The numeric value of an `AccessTrait` enumerator. -/
def AccessTrait.toNat : AccessTrait → Nat
  | .AccessNone => 0
  | .AccessPublic => 1
  | .AccessPrivate => 2
  | .AccessProtected => 3

/-- `getAccess` (Reflection.cpp:1025). -/
def getAccess (D : Decl) : AccessTrait :=
  match D.access with
  | .AS_public => .AccessPublic
  | .AS_private => .AccessPrivate
  | .AS_protected => .AccessProtected
  | .AS_none => .AccessNone

/-- `StorageTrait` (Reflection.cpp:1041). -/
inductive StorageTrait
  | AutomaticStorage
  | StaticStorage
  | ThreadStorage
  | DynamicStorage
deriving DecidableEq, Repr

/-- The numeric value of a `StorageTrait` enumerator. -/
def StorageTrait.toNat : StorageTrait → Nat
  | .AutomaticStorage => 0
  | .StaticStorage => 1
  | .ThreadStorage => 2
  | .DynamicStorage => 3

/-- `getStorage` (Reflection.cpp:1049), on the storage duration of the
variable. -/
def getStorage (s : StorageDuration) : StorageTrait :=
  match s with
  | .SD_FullExpression => .AutomaticStorage
  | .SD_Automatic => .AutomaticStorage
  | .SD_Thread => .ThreadStorage
  | .SD_Static => .StaticStorage
  | .SD_Dynamic => .DynamicStorage

/-- `MethodKind` (Reflection.cpp:1138). -/
inductive MethodKind
  | Method
  | Constructor
  | Destructor
  | Conversion
deriving DecidableEq, Repr

/-- The numeric value of a `MethodKind` enumerator. -/
def MethodKind.toNat : MethodKind → Nat
  | .Method => 0
  | .Constructor => 1
  | .Destructor => 2
  | .Conversion => 3

/-- `VariableTraits` (Reflection.cpp:1068): bit fields Linkage:2 Access:2
Storage:2 Constexpr:1 Defined:1 Inline:1 Rest:23, with `Rest` always zero
(value initialization, never assigned). -/
structure VariableTraits where
  Linkage : LinkageTrait
  Access : AccessTrait
  Storage : StorageTrait
  Constexpr : Bool
  Defined : Bool
  Inline : Bool
deriving DecidableEq, Repr

/-- `TraitsToUnsignedInt` for `VariableTraits` (Reflection.cpp:981): the
memcpy of the packed-1 bit-field record, allocating fields from the least
significant bit upward as the Itanium little-endian layout does.  Each
pack function below spells out the same layout for its record shape. -/
def variableTraitsToUnsignedInt (T : VariableTraits) : Nat :=
  T.Linkage.toNat + 4 * T.Access.toNat + 16 * T.Storage.toNat
    + 64 * T.Constexpr.toNat + 128 * T.Defined.toNat + 256 * T.Inline.toNat

/-- `getVariableTraits` (Reflection.cpp:1078). -/
def getVariableTraits (D : Decl) (v : VarData) : VariableTraits :=
  { Linkage := getLinkage D
    Access := getAccess D
    Storage := getStorage v.storage
    Constexpr := v.isConstexpr
    Defined := v.hasDefinition
    Inline := v.isInline }

/-- `FieldTraits` (Reflection.cpp:1090): Linkage:2 Access:2 Mutable:1. -/
structure FieldTraits where
  Linkage : LinkageTrait
  Access : AccessTrait
  Mutable : Bool
deriving DecidableEq, Repr

/-- Positional packing of `FieldTraits`. -/
def fieldTraitsToUnsignedInt (T : FieldTraits) : Nat :=
  T.Linkage.toNat + 4 * T.Access.toNat + 16 * T.Mutable.toNat

/-- `getFieldTraits` (Reflection.cpp:1098). -/
def getFieldTraits (D : Decl) (isMutable : Bool) : FieldTraits :=
  { Linkage := getLinkage D
    Access := getAccess D
    Mutable := isMutable }

/-- `FunctionTraits` (Reflection.cpp:1109): Linkage:2 Access:2 Constexpr:1
Nothrow:1 Defined:1 Inline:1 Deleted:1. -/
structure FunctionTraits where
  Linkage : LinkageTrait
  Access : AccessTrait
  Constexpr : Bool
  Nothrow : Bool
  Defined : Bool
  Inline : Bool
  Deleted : Bool
deriving DecidableEq, Repr

/-- Positional packing of `FunctionTraits`. -/
def functionTraitsToUnsignedInt (T : FunctionTraits) : Nat :=
  T.Linkage.toNat + 4 * T.Access.toNat + 16 * T.Constexpr.toNat
    + 32 * T.Nothrow.toNat + 64 * T.Defined.toNat + 128 * T.Inline.toNat
    + 256 * T.Deleted.toNat

/-- `getFunctionTraits` (Reflection.cpp:1126). -/
def getFunctionTraits (D : Decl) (f : FunctionData) : FunctionTraits :=
  { Linkage := getLinkage D
    Access := getAccess D
    Constexpr := f.isConstexpr
    Nothrow := f.isNothrow
    Defined := f.hasDefinition
    Inline := f.isInlined
    Deleted := f.isDeleted }

/-- `MethodTraits` (Reflection.cpp:1146): Linkage:2 Access:2 Kind:2 then
seventeen single-bit flags, Rest:9. -/
structure MethodTraits where
  Linkage : LinkageTrait
  Access : AccessTrait
  Kind : MethodKind
  Constexpr : Bool
  Explicit : Bool
  Virtual : Bool
  Pure : Bool
  Final : Bool
  Override : Bool
  Nothrow : Bool
  Defined : Bool
  Inline : Bool
  Deleted : Bool
  Defaulted : Bool
  Trivial : Bool
  DefaultCtor : Bool
  CopyCtor : Bool
  MoveCtor : Bool
  CopyAssign : Bool
  MoveAssign : Bool
deriving DecidableEq, Repr

/-- Positional packing of `MethodTraits`. -/
def methodTraitsToUnsignedInt (T : MethodTraits) : Nat :=
  T.Linkage.toNat + 4 * T.Access.toNat + 16 * T.Kind.toNat
    + 64 * T.Constexpr.toNat + 128 * T.Explicit.toNat + 256 * T.Virtual.toNat
    + 512 * T.Pure.toNat + 1024 * T.Final.toNat + 2048 * T.Override.toNat
    + 4096 * T.Nothrow.toNat + 8192 * T.Defined.toNat + 16384 * T.Inline.toNat
    + 32768 * T.Deleted.toNat + 65536 * T.Defaulted.toNat
    + 131072 * T.Trivial.toNat + 262144 * T.DefaultCtor.toNat
    + 524288 * T.CopyCtor.toNat + 1048576 * T.MoveCtor.toNat
    + 2097152 * T.CopyAssign.toNat + 4194304 * T.MoveAssign.toNat

/-- The all-zero `MethodTraits()` value initialization. -/
def MethodTraits.zero : MethodTraits :=
  { Linkage := .LinkNone, Access := .AccessNone, Kind := .Method
    Constexpr := false, Explicit := false, Virtual := false, Pure := false
    Final := false, Override := false, Nothrow := false, Defined := false
    Inline := false, Deleted := false, Defaulted := false, Trivial := false
    DefaultCtor := false, CopyCtor := false, MoveCtor := false
    CopyAssign := false, MoveAssign := false }

/-- `getMethodTraits(const CXXConstructorDecl *)` (Reflection.cpp:1170). -/
def getMethodTraitsCtor (D : Decl) (f : FunctionData) (m : MethodData) : MethodTraits :=
  { MethodTraits.zero with
    Linkage := getLinkage D
    Access := getAccess D
    Kind := .Constructor
    Constexpr := f.isConstexpr
    Nothrow := f.isNothrow
    Defined := f.hasDefinition
    Inline := f.isInlined
    Deleted := f.isDeleted
    Defaulted := m.isDefaulted
    Trivial := m.isTrivial
    DefaultCtor := m.isDefaultConstructor
    CopyCtor := m.isCopyConstructor
    MoveCtor := m.isMoveConstructor }

/-- `getMethodTraits(const CXXDestructorDecl *)` (Reflection.cpp:1188);
note that this overload does not set `Constexpr`. -/
def getMethodTraitsDtor (D : Decl) (f : FunctionData) (m : MethodData) : MethodTraits :=
  { MethodTraits.zero with
    Linkage := getLinkage D
    Access := getAccess D
    Kind := .Destructor
    Virtual := m.isVirtual
    Pure := m.isPure
    Final := m.hasFinalAttr
    Override := m.hasOverrideAttr
    Nothrow := f.isNothrow
    Defined := f.hasDefinition
    Inline := f.isInlined
    Deleted := f.isDeleted
    Defaulted := m.isDefaulted
    Trivial := m.isTrivial }

/-- `getMethodTraits(const CXXConversionDecl *)` (Reflection.cpp:1206). -/
def getMethodTraitsConv (D : Decl) (f : FunctionData) (m : MethodData) : MethodTraits :=
  { MethodTraits.zero with
    Linkage := getLinkage D
    Access := getAccess D
    Kind := .Conversion
    Constexpr := f.isConstexpr
    Explicit := m.isExplicit
    Virtual := m.isVirtual
    Pure := m.isPure
    Final := m.hasFinalAttr
    Override := m.hasOverrideAttr
    Nothrow := f.isNothrow
    Defined := f.hasDefinition
    Inline := f.isInlined
    Deleted := f.isDeleted }

/-- `getMethodTraits(const CXXMethodDecl *)` (Reflection.cpp:1224). -/
def getMethodTraitsMethod (D : Decl) (f : FunctionData) (m : MethodData) : MethodTraits :=
  { MethodTraits.zero with
    Linkage := getLinkage D
    Access := getAccess D
    Kind := .Method
    Constexpr := f.isConstexpr
    Virtual := m.isVirtual
    Pure := m.isPure
    Final := m.hasFinalAttr
    Override := m.hasOverrideAttr
    Nothrow := f.isNothrow
    Defined := f.hasDefinition
    Inline := f.isInlined
    Deleted := f.isDeleted
    CopyAssign := m.isCopyAssignmentOperator
    MoveAssign := m.isMoveAssignmentOperator }

/-- `ValueTraits` (Reflection.cpp:1243): Linkage:2 Access:2. -/
structure ValueTraits where
  Linkage : LinkageTrait
  Access : AccessTrait
deriving DecidableEq, Repr

/-- Positional packing of `ValueTraits`. -/
def valueTraitsToUnsignedInt (T : ValueTraits) : Nat :=
  T.Linkage.toNat + 4 * T.Access.toNat

/-- `getValueTraits` (Reflection.cpp:1249). -/
def getValueTraits (D : Decl) : ValueTraits :=
  { Linkage := getLinkage D
    Access := getAccess D }

/-- `NamespaceTraits` (Reflection.cpp:1256): Linkage:2 Access:2 Inline:1. -/
structure NamespaceTraits where
  Linkage : LinkageTrait
  Access : AccessTrait
  Inline : Bool
deriving DecidableEq, Repr

/-- Positional packing of `NamespaceTraits`. -/
def namespaceTraitsToUnsignedInt (T : NamespaceTraits) : Nat :=
  T.Linkage.toNat + 4 * T.Access.toNat + 16 * T.Inline.toNat

/-- `getNamespaceTraits` (Reflection.cpp:1263). -/
def getNamespaceTraits (D : Decl) (isInline : Bool) : NamespaceTraits :=
  { Linkage := getLinkage D
    Access := getAccess D
    Inline := isInline }

/-- `makeDeclTraits` (Reflection.cpp:1271): dispatch on the reachable
declaration subkind to one packed encoder; any other subkind, or no
reachable declaration, fails. -/
def makeDeclTraits (R : Reflection) : QueryOutcome Nat :=
  match getReachableDecl R with
  | some D =>
    match D.kind with
    | .varDecl v => .ok (variableTraitsToUnsignedInt (getVariableTraits D v))
    | .fieldDecl isMutable _ => .ok (fieldTraitsToUnsignedInt (getFieldTraits D isMutable))
    | .cxxConstructorDecl f m => .ok (methodTraitsToUnsignedInt (getMethodTraitsCtor D f m))
    | .cxxDestructorDecl f m => .ok (methodTraitsToUnsignedInt (getMethodTraitsDtor D f m))
    | .cxxConversionDecl f m => .ok (methodTraitsToUnsignedInt (getMethodTraitsConv D f m))
    | .cxxMethodDecl f m => .ok (methodTraitsToUnsignedInt (getMethodTraitsMethod D f m))
    | .functionDecl f => .ok (functionTraitsToUnsignedInt (getFunctionTraits D f))
    | .enumConstantDecl => .ok (valueTraitsToUnsignedInt (getValueTraits D))
    | .namespaceDecl isInline => .ok (namespaceTraitsToUnsignedInt (getNamespaceTraits D isInline))
    | _ => Error R
  | none => Error R

/-- `LinkageTraits` (Reflection.cpp:1296): Kind:2. -/
structure LinkageTraits where
  Kind : LinkageTrait
deriving DecidableEq, Repr

/-- Positional packing of `LinkageTraits`. -/
def linkageTraitsToUnsignedInt (T : LinkageTraits) : Nat :=
  T.Kind.toNat

/-- `getLinkageTraits` (Reflection.cpp:1301). -/
def getLinkageTraits (D : Decl) : LinkageTraits :=
  { Kind := getLinkage D }

/-- True if the declaration subkind is a clang `NamedDecl`; access
specifiers and the translation unit are not named. -/
def isNamedDeclKind : DeclKind → Bool
  | .varDecl _ => true
  | .fieldDecl _ _ => true
  | .enumConstantDecl => true
  | .cxxConstructorDecl _ _ => true
  | .cxxDestructorDecl _ _ => true
  | .cxxConversionDecl _ _ => true
  | .cxxMethodDecl _ _ => true
  | .functionDecl _ => true
  | .namespaceDecl _ => true
  | .cxxRecordDecl _ => true
  | .enumDecl _ => true
  | .translationUnitDecl => false
  | .accessSpecDecl => false
  | .otherDecl _ => false

/-- `makeLinkageTraits` (Reflection.cpp:1307). -/
def makeLinkageTraits (R : Reflection) : QueryOutcome Nat :=
  match getReachableDecl R with
  | some D =>
    if isNamedDeclKind D.kind then
      .ok (linkageTraitsToUnsignedInt (getLinkageTraits D))
    else Error R
  | none => Error R

/-- `AccessTraits` (Reflection.cpp:1315): Padding:2 (always zero) Kind:2. -/
structure AccessTraits where
  Kind : AccessTrait
deriving DecidableEq, Repr

/-- Positional packing of `AccessTraits`: the two padding bits stay zero. -/
def accessTraitsToUnsignedInt (T : AccessTraits) : Nat :=
  4 * T.Kind.toNat

/-- `getAccessTraits` (Reflection.cpp:1321). -/
def getAccessTraits (D : Decl) : AccessTraits :=
  { Kind := getAccess D }

/-- `makeAccessTraits` (Reflection.cpp:1327). -/
def makeAccessTraits (R : Reflection) : QueryOutcome Nat :=
  match getReachableDecl R with
  | some D => .ok (accessTraitsToUnsignedInt (getAccessTraits D))
  | none => Error R

/-- `ClassKindTrait` (Reflection.cpp:1334). -/
inductive ClassKindTrait
  | StructKind
  | ClassKind
  | UnionKind
deriving DecidableEq, Repr

/-- The numeric value of a `ClassKindTrait` enumerator. -/
def ClassKindTrait.toNat : ClassKindTrait → Nat
  | .StructKind => 0
  | .ClassKind => 1
  | .UnionKind => 2

/-- `getClassKind` (Reflection.cpp:1349). -/
def getClassKind (tk : TagTypeKind) : ClassKindTrait :=
  match tk with
  | .TTK_Struct => .StructKind
  | .TTK_Class => .ClassKind
  | .TTK_Union => .UnionKind

/-- `ClassTraits` (Reflection.cpp:1337): Linkage:2 Access:2 Kind:2
Complete:1 Polymoprhic:1 Abstract:1 Final:1 Empty:1. -/
structure ClassTraits where
  Linkage : LinkageTrait
  Access : AccessTrait
  Kind : ClassKindTrait
  Complete : Bool
  Polymoprhic : Bool
  Abstract : Bool
  Final : Bool
  Empty : Bool
deriving DecidableEq, Repr

/-- Positional packing of `ClassTraits`. -/
def classTraitsToUnsignedInt (T : ClassTraits) : Nat :=
  T.Linkage.toNat + 4 * T.Access.toNat + 16 * T.Kind.toNat
    + 64 * T.Complete.toNat + 128 * T.Polymoprhic.toNat
    + 256 * T.Abstract.toNat + 512 * T.Final.toNat + 1024 * T.Empty.toNat

/-- `getClassTraits` (Reflection.cpp:1362): the definition-dependent flags
are only read when the class is complete, and stay zero otherwise. -/
def getClassTraits (D : Decl) (c : ClassData) : ClassTraits :=
  { Linkage := getLinkage D
    Access := getAccess D
    Kind := getClassKind c.tagKind
    Complete := c.hasDefinition
    Polymoprhic := if c.hasDefinition then c.isPolymorphic else false
    Abstract := if c.hasDefinition then c.isAbstract else false
    Final := if c.hasDefinition then c.hasFinalAttr else false
    Empty := if c.hasDefinition then c.isEmpty else false }

/-- `EnumTraits` (Reflection.cpp:1377): Linkage:2 Access:2 Scoped:1
Complete:1. -/
structure EnumTraits where
  Linkage : LinkageTrait
  Access : AccessTrait
  Scoped : Bool
  Complete : Bool
deriving DecidableEq, Repr

/-- Positional packing of `EnumTraits`. -/
def enumTraitsToUnsignedInt (T : EnumTraits) : Nat :=
  T.Linkage.toNat + 4 * T.Access.toNat + 16 * T.Scoped.toNat
    + 32 * T.Complete.toNat

/-- `getEnumTraits` (Reflection.cpp:1385). -/
def getEnumTraits (D : Decl) (e : EnumData) : EnumTraits :=
  { Linkage := getLinkage D
    Access := getAccess D
    Scoped := e.isScoped
    Complete := e.isComplete }

/-- `makeTypeTraits` (Reflection.cpp:1394): only a type reflection whose
canonical type names a tag declaration has type traits; a tag declaration
that is neither a record nor an enum hits `llvm_unreachable`. -/
def makeTypeTraits (R : Reflection) : QueryOutcome Nat :=
  match getCanonicalType R with
  | some T =>
    match (R.ctx.typeInfoOf T.node).tagDecl with
    | some TD =>
      match TD.kind with
      | .cxxRecordDecl c => .ok (classTraitsToUnsignedInt (getClassTraits TD c))
      | .enumDecl e => .ok (enumTraitsToUnsignedInt (getEnumTraits TD e))
      | _ => .crash
    | none => Error R
  | none => Error R

/-- `declById`: resolve a declaration id against the context table
(pointer dereference in the embedding). -/
def declById (C : ASTContext) (i : Nat) : Option Decl :=
  C.declTable.find? (fun d => d.did == i)

/-- The ordered member list of declaration context `i`
(`DeclContext::decls`): the context's children in declaration order, which
also induces the `getNextDeclInContext` sibling chain. -/
def ctxMembers (C : ASTContext) (i : Nat) : List Decl :=
  C.declTable.filter (fun d => d.ctxId == some i)

/-- `isa<AccessSpecDecl>`. -/
def isAccessSpecDecl (D : Decl) : Bool :=
  match D.kind with
  | .accessSpecDecl => true
  | _ => false

/-- `isa<RecordDecl>` (the only record subkind in the model is
`cxxRecordDecl`). -/
def isRecordDeclKind : DeclKind → Bool
  | .cxxRecordDecl _ => true
  | _ => false

/-- True if the declaration subkind is a clang `DeclContext` (a scope with
children): translation units, namespaces, tags and function-likes. -/
def isDeclContextKind : DeclKind → Bool
  | .translationUnitDecl => true
  | .namespaceDecl _ => true
  | .cxxRecordDecl _ => true
  | .enumDecl _ => true
  | .functionDecl _ => true
  | .cxxMethodDecl _ _ => true
  | .cxxConstructorDecl _ _ => true
  | .cxxDestructorDecl _ _ => true
  | .cxxConversionDecl _ _ => true
  | _ => false

/-- `hasDefaultAccess` inner loop (Reflection.cpp:806): scan the record
members in order; an access specifier first answers false, the target first
answers true, exhaustion falls through to the trailing `SuccessFalse`. -/
def scanDefaultAccess (D : Decl) : List Decl → Bool
  | [] => false
  | c :: rest =>
    if isAccessSpecDecl c then false
    else if c.did == D.did then true
    else scanDefaultAccess D rest

/-- `hasDefaultAccess` (Reflection.cpp:803). -/
def hasDefaultAccess (R : Reflection) : QueryOutcome Bool :=
  match getReachableDecl R with
  | some D =>
    match D.ctxId.bind (declById R.ctx) with
    | some P =>
      if isRecordDeclKind P.kind then
        SuccessBool R (scanDefaultAccess D (ctxMembers R.ctx P.did))
      else SuccessFalse R
    | none => SuccessFalse R
  | none => SuccessFalse R

/-- `isReflectableDecl` (Reflection.cpp:1548): access specifiers and a
class's injected self-name are filtered out of member traversal. -/
def isReflectableDecl (D : Decl) : Bool :=
  match D.kind with
  | .accessSpecDecl => false
  | .cxxRecordDecl c => !c.isInjectedClassName
  | _ => true

/-- The sibling suffix strictly after the first occurrence of `D` in a
member list (`Decl::getNextDeclInContext` and its successors). -/
def declsAfterIn (l : List Decl) (D : Decl) : List Decl :=
  (l.dropWhile (fun x => x.did != D.did)).tail

/-- `findNextMember` (Reflection.cpp:1559): chase the sibling chain until a
reflectable declaration is found; expressed as a search over the remaining
sibling suffix. -/
def findNextMemberIn (l : List Decl) : Option Decl :=
  l.find? isReflectableDecl

/-- `getFirstMember` (Reflection.cpp:1566): chase forward from
`*DC->decls_begin()`. -/
def getFirstMember (C : ASTContext) (i : Nat) : Option Decl :=
  findNextMemberIn (ctxMembers C i)

/-- `getNextMember` (Reflection.cpp:1571): chase forward from
`D->getNextDeclInContext()`. -/
def getNextMember (C : ASTContext) (D : Decl) : Option Decl :=
  match D.ctxId with
  | some i => findNextMemberIn (declsAfterIn (ctxMembers C i) D)
  | none => none

/-- `getReachableDeclContext` (Reflection.cpp:1576). -/
def getReachableDeclContext (R : Reflection) : Option Decl :=
  match getReachableDecl R with
  | some D => if isDeclContextKind D.kind then some D else none
  | none => none

/-- `makeReflection(const Decl *)` (Reflection.cpp:1437): a null
declaration yields the invalid reflection (Reflection.cpp:1431), with no
diagnostic payload. -/
def makeDeclReflection : Option Decl → APValueReflection
  | none => .invalidRefl none
  | some D => .declRefl D

/-- `getBegin` (Reflection.cpp:1584). -/
def getBegin (R : Reflection) : QueryOutcome APValueReflection :=
  match getReachableDeclContext R with
  | some DC => .ok (makeDeclReflection (getFirstMember R.ctx DC.did))
  | none => Error R

/-- `getNext` (Reflection.cpp:1590). -/
def getNext (R : Reflection) : QueryOutcome APValueReflection :=
  match getReachableDecl R with
  | some D => .ok (makeDeclReflection (getNextMember R.ctx D))
  | none => Error R

/-- One step of the traversal protocol: wrap the previous successful
result in a fresh `Reflection` over the same context and apply `getNext`;
a failed or crashed call has no result to continue from. -/
def stepNext (C : ASTContext) (hd : Bool) :
    QueryOutcome APValueReflection → QueryOutcome APValueReflection
  | .ok r => getNext ⟨C, r, hd⟩
  | .fail d => .fail d
  | .crash => .crash

/-- The traversal protocol: call `get_begin` once, then `get_next` `k`
times, each time on the previous call's result. -/
def traverseN (R : Reflection) : Nat → QueryOutcome APValueReflection
  | 0 => getBegin R
  | k + 1 => stepNext R.ctx R.hasDiag (traverseN R k)

/-- `Match` (Reflection.cpp:1709): canonical unqualified type identity. -/
def MatchTypes (C : ASTContext) (a b : QualType) : Bool :=
  (C.typeInfoOf a.node).unqualCanonId == (C.typeInfoOf b.node).unqualCanonId

/-- `Reflection::HasUserDefinedAttribute` (Reflection.cpp:1733): a null
reflected attribute type returns false (a failure, with no diagnostic);
otherwise the attached user-defined attributes of the reachable declaration
are scanned and a boolean presence indicator is produced. -/
def HasUserDefinedAttribute (R : Reflection) (AttributeType : Option QualType) :
    QueryOutcome Bool :=
  match AttributeType with
  | none => .fail none
  | some T =>
    match getReachableDecl R with
    | some D =>
      match D.attrs.find? (fun A => MatchTypes R.ctx A T) with
      | some _ => SuccessTrue R
      | none => SuccessFalse R
    | none => SuccessFalse R

/-- `getName` (Reflection.cpp:1647).  A type reflection renders its
spelling with tag keywords suppressed (constant-expression evaluation of
the freshly built string literal always succeeds and is modelled as such).
Every other reflection kind downcasts `getReachableDecl` with a plain
`dyn_cast`, which dereferences a null pointer when nothing is reachable. -/
def getNameImpl (R : Reflection) : QueryOutcome String :=
  match R.ref with
  | .typeRefl T => .ok (R.ctx.typeInfoOf T.node).typeName
  | _ =>
    match getReachableDecl R with
    | none => .crash
    | some D =>
      if isNamedDeclKind D.kind then
        match D.ident with
        | some s => .ok s
        | none => Error R
      else Error R

/-- `Reflection::GetName` (Reflection.cpp:1688): an invalid reflection
fails immediately; both `RQ_get_name` and `RQ_get_display_name` then share
`getName`. -/
def GetName (R : Reflection) : QueryOutcome String :=
  if R.isInvalid then Error R
  else getNameImpl R


/-- The `ReflectionQuery` enumeration (Reflection.h:260) as its
underlying integer values, assigned sequentially from `RQ_unknown = 0`
exactly as a C++ unscoped enumeration does. -/
def RQ_unknown : Nat := 0
def RQ_is_invalid : Nat := 1
def RQ_is_entity : Nat := 2
def RQ_is_unnamed : Nat := 3
def RQ_is_variable : Nat := 4
def RQ_is_function : Nat := 5
def RQ_is_class : Nat := 6
def RQ_is_union : Nat := 7
def RQ_is_unscoped_enum : Nat := 8
def RQ_is_scoped_enum : Nat := 9
def RQ_is_enumerator : Nat := 10
def RQ_is_bitfield : Nat := 11
def RQ_is_static_data_member : Nat := 12
def RQ_is_nonstatic_data_member : Nat := 13
def RQ_is_static_member_function : Nat := 14
def RQ_is_nonstatic_member_function : Nat := 15
def RQ_is_copy_assignment_operator : Nat := 16
def RQ_is_move_assignment_operator : Nat := 17
def RQ_is_constructor : Nat := 18
def RQ_is_default_constructor : Nat := 19
def RQ_is_copy_constructor : Nat := 20
def RQ_is_move_constructor : Nat := 21
def RQ_is_destructor : Nat := 22
def RQ_is_type : Nat := 23
def RQ_is_function_type : Nat := 24
def RQ_is_class_type : Nat := 25
def RQ_is_union_type : Nat := 26
def RQ_is_enum_type : Nat := 27
def RQ_is_scoped_enum_type : Nat := 28
def RQ_is_void_type : Nat := 29
def RQ_is_null_pointer_type : Nat := 30
def RQ_is_integral_type : Nat := 31
def RQ_is_floating_point_type : Nat := 32
def RQ_is_array_type : Nat := 33
def RQ_is_pointer_type : Nat := 34
def RQ_is_lvalue_reference_type : Nat := 35
def RQ_is_rvalue_reference_type : Nat := 36
def RQ_is_member_object_pointer_type : Nat := 37
def RQ_is_member_function_pointer_type : Nat := 38
def RQ_is_closure_type : Nat := 39
def RQ_is_namespace : Nat := 40
def RQ_is_namespace_alias : Nat := 41
def RQ_is_type_alias : Nat := 42
def RQ_is_template : Nat := 43
def RQ_is_class_template : Nat := 44
def RQ_is_alias_template : Nat := 45
def RQ_is_function_template : Nat := 46
def RQ_is_variable_template : Nat := 47
def RQ_is_static_member_function_template : Nat := 48
def RQ_is_nonstatic_member_function_template : Nat := 49
def RQ_is_constructor_template : Nat := 50
def RQ_is_destructor_template : Nat := 51
def RQ_is_concept : Nat := 52
def RQ_is_specialization : Nat := 53
def RQ_is_partial_specialization : Nat := 54
def RQ_is_explicit_specialization : Nat := 55
def RQ_is_implicit_instantiation : Nat := 56
def RQ_is_explicit_instantiation : Nat := 57
def RQ_is_direct_base : Nat := 58
def RQ_is_virtual_base : Nat := 59
def RQ_is_function_parameter : Nat := 60
def RQ_is_template_parameter : Nat := 61
def RQ_is_type_template_parameter : Nat := 62
def RQ_is_nontype_template_parameter : Nat := 63
def RQ_is_template_template_parameter : Nat := 64
def RQ_is_expression : Nat := 65
def RQ_is_lvalue : Nat := 66
def RQ_is_xvalue : Nat := 67
def RQ_is_rvalue : Nat := 68
def RQ_is_value : Nat := 69
def RQ_is_local : Nat := 70
def RQ_is_class_member : Nat := 71
def RQ_has_default_access : Nat := 72
def RQ_get_decl_traits : Nat := 73
def RQ_get_linkage_traits : Nat := 74
def RQ_get_access_traits : Nat := 75
def RQ_get_type_traits : Nat := 76
def RQ_get_entity : Nat := 77
def RQ_get_parent : Nat := 78
def RQ_get_type : Nat := 79
def RQ_get_return_type : Nat := 80
def RQ_get_this_ref_type : Nat := 81
def RQ_get_definition : Nat := 82
def RQ_get_begin : Nat := 83
def RQ_get_next : Nat := 84
def RQ_get_name : Nat := 85
def RQ_get_display_name : Nat := 86
def RQ_get_attribute : Nat := 87
def RQ_has_attribute : Nat := 88

/-- Every enumerator of the `ReflectionQuery` enumeration (the sentinel
labels alias members of this list and are defined below). -/
def allReflectionQueries : List Nat :=
  [ RQ_unknown, RQ_is_invalid, RQ_is_entity, RQ_is_unnamed, RQ_is_variable, RQ_is_function,
    RQ_is_class, RQ_is_union, RQ_is_unscoped_enum, RQ_is_scoped_enum, RQ_is_enumerator,
    RQ_is_bitfield, RQ_is_static_data_member, RQ_is_nonstatic_data_member,
    RQ_is_static_member_function, RQ_is_nonstatic_member_function,
    RQ_is_copy_assignment_operator, RQ_is_move_assignment_operator, RQ_is_constructor,
    RQ_is_default_constructor, RQ_is_copy_constructor, RQ_is_move_constructor, RQ_is_destructor,
    RQ_is_type, RQ_is_function_type, RQ_is_class_type, RQ_is_union_type, RQ_is_enum_type,
    RQ_is_scoped_enum_type, RQ_is_void_type, RQ_is_null_pointer_type, RQ_is_integral_type,
    RQ_is_floating_point_type, RQ_is_array_type, RQ_is_pointer_type,
    RQ_is_lvalue_reference_type, RQ_is_rvalue_reference_type, RQ_is_member_object_pointer_type,
    RQ_is_member_function_pointer_type, RQ_is_closure_type, RQ_is_namespace,
    RQ_is_namespace_alias, RQ_is_type_alias, RQ_is_template, RQ_is_class_template,
    RQ_is_alias_template, RQ_is_function_template, RQ_is_variable_template,
    RQ_is_static_member_function_template, RQ_is_nonstatic_member_function_template,
    RQ_is_constructor_template, RQ_is_destructor_template, RQ_is_concept, RQ_is_specialization,
    RQ_is_partial_specialization, RQ_is_explicit_specialization, RQ_is_implicit_instantiation,
    RQ_is_explicit_instantiation, RQ_is_direct_base, RQ_is_virtual_base,
    RQ_is_function_parameter, RQ_is_template_parameter, RQ_is_type_template_parameter,
    RQ_is_nontype_template_parameter, RQ_is_template_template_parameter, RQ_is_expression,
    RQ_is_lvalue, RQ_is_xvalue, RQ_is_rvalue, RQ_is_value, RQ_is_local, RQ_is_class_member,
    RQ_has_default_access, RQ_get_decl_traits, RQ_get_linkage_traits, RQ_get_access_traits,
    RQ_get_type_traits, RQ_get_entity, RQ_get_parent, RQ_get_type, RQ_get_return_type,
    RQ_get_this_ref_type, RQ_get_definition, RQ_get_begin, RQ_get_next, RQ_get_name,
    RQ_get_display_name, RQ_get_attribute, RQ_has_attribute]

/-- Sentinel: first predicate query (Reflection.h:383). -/
def RQ_first_predicate : Nat := RQ_is_invalid

/-- Sentinel: last predicate query (Reflection.h:384). -/
def RQ_last_predicate : Nat := RQ_has_default_access

/-- Sentinel: first trait query (Reflection.h:386). -/
def RQ_first_trait : Nat := RQ_get_decl_traits

/-- Sentinel: last trait query (Reflection.h:387). -/
def RQ_last_trait : Nat := RQ_get_type_traits

/-- Sentinel: first associated-reflection query (Reflection.h:389). -/
def RQ_first_assoc : Nat := RQ_get_entity

/-- Sentinel: last associated-reflection query (Reflection.h:390). -/
def RQ_last_assoc : Nat := RQ_get_next

/-- Sentinel: first name query (Reflection.h:392). -/
def RQ_first_name : Nat := RQ_get_name

/-- Sentinel: last name query (Reflection.h:393). -/
def RQ_last_name : Nat := RQ_get_display_name

/-- `isPredicateQuery` (Reflection.h:397): one range check. -/
def isPredicateQuery (Q : Nat) : Bool :=
  RQ_first_predicate ≤ Q && Q ≤ RQ_last_predicate

/-- `isTraitQuery` (Reflection.h:402): one range check. -/
def isTraitQuery (Q : Nat) : Bool :=
  RQ_first_trait ≤ Q && Q ≤ RQ_last_trait

/-- `isAssociatedReflectionQuery` (Reflection.h:407): one range check. -/
def isAssociatedReflectionQuery (Q : Nat) : Bool :=
  RQ_first_assoc ≤ Q && Q ≤ RQ_last_assoc

/-- `isNameQuery` (Reflection.h:412): one range check. -/
def isNameQuery (Q : Nat) : Bool :=
  RQ_first_name ≤ Q && Q ≤ RQ_last_name

/-- How many of the four band classifiers accept the query. -/
def bandCount (Q : Nat) : Nat :=
  (if isPredicateQuery Q then 1 else 0) + (if isTraitQuery Q then 1 else 0)
    + (if isAssociatedReflectionQuery Q then 1 else 0)
    + (if isNameQuery Q then 1 else 0)

/-- The declaration subkinds given a packed encoder by the
`makeDeclTraits` dispatch chain: variable, field, constructor, destructor,
conversion, method, function, enumerator, namespace. -/
def hasDeclTraitsEncoder : DeclKind → Bool
  | .varDecl _ => true
  | .fieldDecl _ _ => true
  | .cxxConstructorDecl _ _ => true
  | .cxxDestructorDecl _ _ => true
  | .cxxConversionDecl _ _ => true
  | .cxxMethodDecl _ _ => true
  | .functionDecl _ => true
  | .enumConstantDecl => true
  | .namespaceDecl _ => true
  | _ => false

/-- Type information of the concrete test program: every node is its own
canonical and unqualified-canonical form and names no tag declaration. -/
def typeInfo0 : Nat → TypeInfo :=
  fun n => { canonId := n, unqualCanonId := n, tagDecl := none, typeName := "T" }

/-- Test program: the translation unit. -/
def tu0 : Decl :=
  { did := 0, kind := .translationUnitDecl, ident := none
    linkage := .ExternalLinkage, access := .AS_none, canonId := 0
    ctxId := none, attrs := [] }

/-- Test program: `struct S` at translation-unit scope, with members
`a`, `public:`, `b` in that order. -/
def rec0 : Decl :=
  { did := 10
    kind := .cxxRecordDecl
      { tagKind := .TTK_Struct, isInjectedClassName := false
        hasDefinition := true, isPolymorphic := false, isAbstract := false
        hasFinalAttr := false, isEmpty := false, tsk := .TSK_Undeclared }
    ident := some "S", linkage := .ExternalLinkage, access := .AS_none
    canonId := 10, ctxId := some 0, attrs := [] }

/-- Test program: field `a` of `S`, before the access specifier. -/
def memA : Decl :=
  { did := 11, kind := .fieldDecl false false, ident := some "a"
    linkage := .NoLinkage, access := .AS_none, canonId := 11
    ctxId := some 10, attrs := [] }

/-- Test program: the `public:` access specifier inside `S`. -/
def spec0 : Decl :=
  { did := 12, kind := .accessSpecDecl, ident := none
    linkage := .NoLinkage, access := .AS_none, canonId := 12
    ctxId := some 10, attrs := [] }

/-- Test program: field `b` of `S`, after the access specifier. -/
def memB : Decl :=
  { did := 13, kind := .fieldDecl false false, ident := some "b"
    linkage := .NoLinkage, access := .AS_public, canonId := 13
    ctxId := some 10, attrs := [] }

/-- Test program: the variable payload of `x`: a defined constexpr
variable of static storage duration. -/
def varXData : VarData :=
  { storage := .SD_Static, isConstexpr := true, hasDefinition := true
    isInline := false, isStaticDataMember := false, tsk := .TSK_Undeclared }

/-- Test program: `x`, a public externally-linked defined constexpr
variable carrying one user-defined attribute whose expression type is
node 5. -/
def varX : Decl :=
  { did := 20, kind := .varDecl varXData, ident := some "x"
    linkage := .ExternalLinkage, access := .AS_public, canonId := 20
    ctxId := some 0, attrs := [⟨5⟩] }

/-- The concrete test context. -/
def ctx0 : ASTContext :=
  { declTable := [tu0, rec0, memA, spec0, memB, varX]
    typeInfoOf := typeInfo0 }

/-! Theorems. -/

/-- C1: the `Equal` relation is symmetric for every pair, answers false
for operands of different outer kinds, and is true on any two invalid
reflections regardless of diagnostic payload; reflexivity `Equal C A A`
holds for the invalid, type and declaration kinds.  (The original claim
extends reflexivity to expression and base-specifier reflections, which
the `default:` arm refutes; see the counterexample.) -/
theorem equal_canonical_identity (C : ASTContext) (A B : APValueReflection) :
    (Equal C A B = Equal C B A)
  ∧ (A.getReflectionKind ≠ B.getReflectionKind → Equal C A B = false)
  ∧ (∀ ia ib, A = .invalidRefl ia → B = .invalidRefl ib → Equal C A B = true)
  ∧ ((A.getReflectionKind = .RK_invalid ∨ A.getReflectionKind = .RK_type
        ∨ A.getReflectionKind = .RK_declaration) → Equal C A A = true) := by
  refine ⟨?_, ?_, ?_, ?_⟩
  · cases A <;> cases B <;> simp [Equal, EqualTypes, EqualDecls] <;>
      exact eq_comm
  · intro h
    cases A <;> cases B <;> first | rfl | exact absurd rfl h
  · intro ia ib ha hb
    subst ha; subst hb; rfl
  · intro h
    cases A with
    | invalidRefl ia => rfl
    | typeRefl a => simp [Equal, EqualTypes]
    | declRefl a => simp [Equal, EqualDecls]
    | exprRefl e => simp [APValueReflection.getReflectionKind] at h
    | baseRefl b => simp [APValueReflection.getReflectionKind] at h

/-- C1 counterexample: an expression reflection compared with itself is
unequal, refuting the claimed reflexivity for every valid reflection of
any outer kind. -/
theorem equal_not_reflexive_for_expressions :
    Equal ctx0 (.exprRefl (.otherExpr 0)) (.exprRefl (.otherExpr 0)) = false := rfl

/-- C1 witness. -/
theorem equal_canonical_identity_witness :
    Equal ctx0 (.invalidRefl (some 1)) (.invalidRefl none) = true
  ∧ Equal ctx0 (.typeRefl ⟨3⟩) (.declRefl varX) = false
  ∧ Equal ctx0 (.typeRefl ⟨3⟩) (.typeRefl ⟨3⟩) = true :=
  ⟨(equal_canonical_identity ctx0 (.invalidRefl (some 1)) (.invalidRefl none)).2.2.1
      (some 1) none rfl rfl,
   (equal_canonical_identity ctx0 (.typeRefl ⟨3⟩) (.declRefl varX)).2.1 (by decide),
   (equal_canonical_identity ctx0 (.typeRefl ⟨3⟩) (.typeRefl ⟨3⟩)).2.2.2
      (Or.inr (Or.inl rfl))⟩

/-- C3: for every non-null attribute type argument `has_attribute`
succeeds with a boolean presence indicator that is true exactly when some
attached user-defined attribute canonically matches; a null type argument
makes it fail (returning false with no diagnostic), which is what the
counterexample below exhibits against the original claim. -/
theorem has_attribute_boolean_presence (R : Reflection) (T : QualType) :
    (∃ b, HasUserDefinedAttribute R (some T) = .ok b)
  ∧ (HasUserDefinedAttribute R (some T) = .ok true ↔
      ∃ D, getReachableDecl R = some D ∧ ∃ A ∈ D.attrs, MatchTypes R.ctx A T = true)
  ∧ HasUserDefinedAttribute R none = .fail none := by
  have hsome : HasUserDefinedAttribute R (some T)
      = .ok (match getReachableDecl R with
             | some D => (D.attrs.find? (fun A => MatchTypes R.ctx A T)).isSome
             | none => false) := by
    simp only [HasUserDefinedAttribute]
    rcases getReachableDecl R with _ | D
    · rfl
    · rcases hf : D.attrs.find? (fun A => MatchTypes R.ctx A T) with _ | a <;>
        simp [hf, SuccessTrue, SuccessFalse, SuccessBool]
  refine ⟨⟨_, hsome⟩, ?_, rfl⟩
  rw [hsome]
  rcases hget : getReachableDecl R with _ | D
  · simp
  · simp [List.find?_isSome]

/-- C3 counterexample: with a null attribute-type argument the query
returns false on the success channel (a failure) even though a diagnostic
sink is present, refuting the claim that it always succeeds. -/
theorem has_attribute_null_type_fails :
    HasUserDefinedAttribute ⟨ctx0, .declRefl varX, true⟩ none = .fail none := rfl

/-- C3 witness. -/
theorem has_attribute_boolean_presence_witness :
    HasUserDefinedAttribute ⟨ctx0, .declRefl varX, false⟩ (some ⟨5⟩) = .ok true :=
  (has_attribute_boolean_presence _ _).2.1.mpr
    ⟨varX, by decide, ⟨5⟩, by decide, by decide⟩

/-- C5: the three specialization-state predicates never fail, are derived
from the single shared specialization-kind lookup so that at most one of
them is true, and all answer false when the lookup yields the undeclared
kind (in particular when no declaration is reachable). -/
theorem specialization_predicates_exclusive (R : Reflection) :
    (∃ b1, isExplicitSpecialization R = .ok b1)
  ∧ (∃ b2, isImplicitInstantiation R = .ok b2)
  ∧ (∃ b3, isExplicitInstantiation R = .ok b3)
  ∧ ¬(isExplicitSpecialization R = .ok true ∧ isImplicitInstantiation R = .ok true)
  ∧ ¬(isExplicitSpecialization R = .ok true ∧ isExplicitInstantiation R = .ok true)
  ∧ ¬(isImplicitInstantiation R = .ok true ∧ isExplicitInstantiation R = .ok true)
  ∧ (getTemplateSpecializationKind R = .TSK_Undeclared →
        isExplicitSpecialization R = .ok false
      ∧ isImplicitInstantiation R = .ok false
      ∧ isExplicitInstantiation R = .ok false) := by
  cases h : getTemplateSpecializationKind R <;>
    simp [isExplicitSpecialization, isImplicitInstantiation,
          isExplicitInstantiation, h, SuccessBool, SuccessFalse, SuccessTrue]

/-- C5 witness. -/
theorem specialization_predicates_witness :
    isExplicitSpecialization ⟨ctx0, .baseRefl ⟨⟨1⟩⟩, false⟩ = .ok false
  ∧ isImplicitInstantiation ⟨ctx0, .baseRefl ⟨⟨1⟩⟩, false⟩ = .ok false
  ∧ isExplicitInstantiation ⟨ctx0, .baseRefl ⟨⟨1⟩⟩, false⟩ = .ok false :=
  (specialization_predicates_exclusive _).2.2.2.2.2.2 (by decide)

/-- C6: the trait band fails rather than defaulting: `get_decl_traits`
fails when no declaration is reachable or the reachable declaration's
subkind has no encoder, and `get_type_traits` fails when the value is not
a type reflection or its canonical type names no tag declaration. -/
theorem trait_queries_fail_not_default (R : Reflection) :
    (getReachableDecl R = none → makeDeclTraits R = Error R)
  ∧ (∀ D, getReachableDecl R = some D → hasDeclTraitsEncoder D.kind = false →
      makeDeclTraits R = Error R)
  ∧ (R.isType = false → makeTypeTraits R = Error R)
  ∧ (∀ T, getCanonicalType R = some T → (R.ctx.typeInfoOf T.node).tagDecl = none →
      makeTypeTraits R = Error R) := by
  refine ⟨?_, ?_, ?_, ?_⟩
  · intro h
    simp [makeDeclTraits, h]
  · intro D hD henc
    simp only [makeDeclTraits, hD]
    cases hk : D.kind <;> rw [hk] at henc <;>
      first
        | rfl
        | simp [hasDeclTraitsEncoder] at henc
  · intro h
    have hc : getCanonicalType R = none := by
      cases hr : R.ref
      case typeRefl T =>
        exfalso
        simp [Reflection.isType, APValueReflection.getReflectionKind, hr] at h
      all_goals simp [getCanonicalType, hr]
    simp [makeTypeTraits, hc]
  · intro T hT htag
    simp [makeTypeTraits, hT, htag]

/-- C6 witness. -/
theorem trait_queries_fail_witness :
    makeDeclTraits ⟨ctx0, .declRefl spec0, false⟩ = .fail none
  ∧ makeTypeTraits ⟨ctx0, .typeRefl ⟨7⟩, false⟩ = .fail none := by
  constructor
  · have h := (trait_queries_fail_not_default ⟨ctx0, .declRefl spec0, false⟩).2.1
      spec0 (by decide) (by decide)
    simpa [Error] using h
  · have h := (trait_queries_fail_not_default ⟨ctx0, .typeRefl ⟨7⟩, false⟩).2.2.2
      ⟨7⟩ (by decide) (by decide)
    simpa [Error] using h

/-- C7: the five placeholder queries fail uniformly on every reflection
value, recording the unimplemented-query diagnostic exactly when a
diagnostic sink is present, and never produce an answer. -/
theorem unimplemented_queries_fail_uniformly (R : Reflection) :
    isClosureType R
      = .fail (if R.hasDiag then some .note_reflection_query_unimplemented else none)
  ∧ isDirectBase R
      = .fail (if R.hasDiag then some .note_reflection_query_unimplemented else none)
  ∧ isVirtualBase R
      = .fail (if R.hasDiag then some .note_reflection_query_unimplemented else none)
  ∧ isFunctionParameter R
      = .fail (if R.hasDiag then some .note_reflection_query_unimplemented else none)
  ∧ getThisRefType R
      = .fail (if R.hasDiag then some .note_reflection_query_unimplemented else none) :=
  ⟨rfl, rfl, rfl, rfl, rfl⟩

/-- C8: over the whole query enumeration, every value other than the
unknown marker and the two out-of-band attribute queries lies in exactly
one of the four first/last-sentinel bands, and those three lie in none. -/
theorem query_bands_partition :
    (allReflectionQueries.all fun Q =>
      if Q == RQ_unknown || Q == RQ_get_attribute || Q == RQ_has_attribute
      then bandCount Q == 0
      else bandCount Q == 1) = true := by decide

/-- C9: the packed variable trait record carries linkage in bits 0-1,
access in bits 2-3, storage duration in bits 4-5, constexpr in bit 6,
defined in bit 7, inline in bit 8, with all remaining bits zero (the value
is below 2^9); consequently a public, externally-linked, constexpr,
defined variable decodes positionally to Access=Public, Linkage=External,
Constexpr=1, Defined=1. -/
theorem variable_traits_bit_layout (T : VariableTraits) (D : Decl) (v : VarData) :
    (variableTraitsToUnsignedInt T % 4 = T.Linkage.toNat
     ∧ variableTraitsToUnsignedInt T / 4 % 4 = T.Access.toNat
     ∧ variableTraitsToUnsignedInt T / 16 % 4 = T.Storage.toNat
     ∧ variableTraitsToUnsignedInt T / 64 % 2 = T.Constexpr.toNat
     ∧ variableTraitsToUnsignedInt T / 128 % 2 = T.Defined.toNat
     ∧ variableTraitsToUnsignedInt T / 256 % 2 = T.Inline.toNat
     ∧ variableTraitsToUnsignedInt T < 512)
  ∧ (D.kind = .varDecl v → D.linkage = .ExternalLinkage → D.access = .AS_public →
     v.isConstexpr = true → v.hasDefinition = true →
       variableTraitsToUnsignedInt (getVariableTraits D v) % 4 = 2
     ∧ variableTraitsToUnsignedInt (getVariableTraits D v) / 4 % 4 = 1
     ∧ variableTraitsToUnsignedInt (getVariableTraits D v) / 64 % 2 = 1
     ∧ variableTraitsToUnsignedInt (getVariableTraits D v) / 128 % 2 = 1) := by
  constructor
  · obtain ⟨l, a, s, c, df, i⟩ := T
    cases l <;> cases a <;> cases s <;> cases c <;> cases df <;> cases i <;> decide
  · intro hk hl ha hc hd
    simp only [getVariableTraits, getLinkage, getAccess, hl, ha, hc, hd,
               variableTraitsToUnsignedInt]
    cases hst : v.storage <;> cases hin : v.isInline <;>
      simp [hst, hin, getStorage] <;> decide

/-- C9 witness. -/
theorem variable_traits_bit_layout_witness :
    variableTraitsToUnsignedInt (getVariableTraits varX varXData) % 4 = 2
  ∧ variableTraitsToUnsignedInt (getVariableTraits varX varXData) / 4 % 4 = 1
  ∧ variableTraitsToUnsignedInt (getVariableTraits varX varXData) / 64 % 2 = 1
  ∧ variableTraitsToUnsignedInt (getVariableTraits varX varXData) / 128 % 2 = 1 :=
  (variable_traits_bit_layout (getVariableTraits varX varXData) varX varXData).2
    rfl rfl rfl rfl rfl

/-- C10: the name queries only avoid the unguarded downcast of the
reachable-declaration projection when the reflection is invalid, is a
type, or has a reachable declaration; a base-specifier reflection, or an
expression reflection that is not a direct reference to a named entity,
violates that precondition and crashes instead of reaching the name band's
normal failure path. -/
theorem name_query_null_deref_precondition (R : Reflection) :
    ((R.isInvalid = true ∨ R.isType = true ∨ getReachableDecl R ≠ none) →
      GetName R ≠ .crash)
  ∧ (∀ B, R.ref = .baseRefl B → GetName R = .crash)
  ∧ (∀ E, R.ref = .exprRefl (.otherExpr E) → GetName R = .crash) := by
  refine ⟨?_, ?_, ?_⟩
  · intro h
    cases hr : R.ref with
    | invalidRefl i =>
      simp [GetName, Reflection.isInvalid, APValueReflection.getReflectionKind,
            hr, Error]
    | typeRefl T =>
      simp [GetName, getNameImpl, Reflection.isInvalid,
            APValueReflection.getReflectionKind, hr]
    | declRefl D =>
      simp only [GetName, getNameImpl, Reflection.isInvalid,
                 APValueReflection.getReflectionKind, hr, getReachableDecl,
                 getAsTypeDecl]
      cases hn : isNamedDeclKind D.kind <;>
        cases hident : D.ident <;>
          simp [hn, hident, Error]
    | exprRefl E =>
      cases E with
      | declRef D =>
        simp only [GetName, getNameImpl, Reflection.isInvalid,
                   APValueReflection.getReflectionKind, hr, getReachableDecl,
                   getAsTypeDecl, getEntityDecl]
        cases hn : isNamedDeclKind D.kind <;>
          cases hident : D.ident <;>
            simp [hn, hident, Error]
      | otherExpr e =>
        rcases h with h | h | h
        · simp [Reflection.isInvalid, APValueReflection.getReflectionKind, hr] at h
        · simp [Reflection.isType, APValueReflection.getReflectionKind, hr] at h
        · exact absurd (by simp [getReachableDecl, getAsTypeDecl, hr, getEntityDecl]) h
    | baseRefl B =>
      rcases h with h | h | h
      · simp [Reflection.isInvalid, APValueReflection.getReflectionKind, hr] at h
      · simp [Reflection.isType, APValueReflection.getReflectionKind, hr] at h
      · exact absurd (by simp [getReachableDecl, getAsTypeDecl, hr]) h
  · intro B hB
    simp [GetName, Reflection.isInvalid, APValueReflection.getReflectionKind, hB,
          getNameImpl, getReachableDecl, getAsTypeDecl]
  · intro E hE
    simp [GetName, Reflection.isInvalid, APValueReflection.getReflectionKind, hE,
          getNameImpl, getReachableDecl, getAsTypeDecl, getEntityDecl]

/-- C10 witness. -/
theorem name_query_safety_witness :
    GetName ⟨ctx0, .typeRefl ⟨3⟩, false⟩ ≠ .crash
  ∧ GetName ⟨ctx0, .baseRefl ⟨⟨1⟩⟩, false⟩ = .crash :=
  ⟨(name_query_null_deref_precondition ⟨ctx0, .typeRefl ⟨3⟩, false⟩).1
      (Or.inr (Or.inl (by decide))),
   (name_query_null_deref_precondition ⟨ctx0, .baseRefl ⟨⟨1⟩⟩, false⟩).2.1
      ⟨⟨1⟩⟩ rfl⟩

/-- The member scan of `hasDefaultAccess` succeeds exactly when the
target's identity occurs among the members that precede the first access
specifier. -/
theorem scanDefaultAccess_iff (D : Decl) (l : List Decl) :
    scanDefaultAccess D l = true ↔
      D.did ∈ (l.takeWhile (fun c => !isAccessSpecDecl c)).map (fun d => d.did) := by
  induction l with
  | nil => simp [scanDefaultAccess]
  | cons c t ih =>
    by_cases hs : isAccessSpecDecl c
    · simp [scanDefaultAccess, hs, List.takeWhile_cons]
    · by_cases hd : c.did = D.did
      · simp [scanDefaultAccess, hs, hd, List.takeWhile_cons]
      · have hd2 : ¬(D.did = c.did) := fun he => hd he.symm
        simp [scanDefaultAccess, hs, hd, hd2, List.takeWhile_cons, ih]

/-- C4: `has_default_access` on a declaration whose context is a record is
true exactly when the declaration occurs among the record's members before
the first explicit access specifier; it answers false when no declaration
is reachable or the context is not a record, and it never fails. -/
theorem has_default_access_scan (R : Reflection) :
    (∀ D P i, getReachableDecl R = some D → D.ctxId = some i →
        declById R.ctx i = some P → isRecordDeclKind P.kind = true →
        (hasDefaultAccess R = .ok true ↔
          D.did ∈ ((ctxMembers R.ctx P.did).takeWhile
                    (fun c => !isAccessSpecDecl c)).map (fun d => d.did)))
  ∧ (getReachableDecl R = none → hasDefaultAccess R = .ok false)
  ∧ (∀ D P i, getReachableDecl R = some D → D.ctxId = some i →
        declById R.ctx i = some P → isRecordDeclKind P.kind = false →
        hasDefaultAccess R = .ok false)
  ∧ (∃ b, hasDefaultAccess R = .ok b) := by
  refine ⟨?_, ?_, ?_, ?_⟩
  · intro D P i h1 h2 h3 h4
    have he : hasDefaultAccess R
        = .ok (scanDefaultAccess D (ctxMembers R.ctx P.did)) := by
      simp [hasDefaultAccess, h1, h2, h3, h4, SuccessBool]
    rw [he]
    simpa using scanDefaultAccess_iff D (ctxMembers R.ctx P.did)
  · intro h
    simp [hasDefaultAccess, h, SuccessFalse, SuccessBool]
  · intro D P i h1 h2 h3 h4
    simp [hasDefaultAccess, h1, h2, h3, h4, SuccessFalse, SuccessBool]
  · rcases h1 : getReachableDecl R with _ | D
    · exact ⟨false, by simp [hasDefaultAccess, h1, SuccessFalse, SuccessBool]⟩
    · rcases h2 : D.ctxId.bind (declById R.ctx) with _ | P
      · exact ⟨false, by simp [hasDefaultAccess, h1, h2, SuccessFalse, SuccessBool]⟩
      · cases h3 : isRecordDeclKind P.kind
        · exact ⟨false, by simp [hasDefaultAccess, h1, h2, h3, SuccessFalse, SuccessBool]⟩
        · exact ⟨scanDefaultAccess D (ctxMembers R.ctx P.did),
            by simp [hasDefaultAccess, h1, h2, h3, SuccessBool]⟩

/-- C4 witness: in the record with members `[a, public specifier, b]`,
member `a` has default access and member `b` does not. -/
theorem has_default_access_witness :
    hasDefaultAccess ⟨ctx0, .declRefl memA, false⟩ = .ok true
  ∧ hasDefaultAccess ⟨ctx0, .declRefl memB, false⟩ ≠ .ok true := by
  constructor
  · exact ((has_default_access_scan ⟨ctx0, .declRefl memA, false⟩).1 memA rec0 10
      (by decide) (by decide) (by decide) (by decide)).mpr (by decide)
  · intro hc
    exact absurd (((has_default_access_scan ⟨ctx0, .declRefl memB, false⟩).1 memB rec0 10
      (by decide) (by decide) (by decide) (by decide)).mp hc) (by decide)

/-- Searching a list is the same as indexing the zeroth element of its
filtered form. -/
theorem find_eq_filter_get0 {α : Type} (p : α → Bool) (l : List α) :
    l.find? p = (l.filter p).get? 0 := by
  induction l with
  | nil => rfl
  | cons a t ih =>
    by_cases h : p a
    · simp [List.find?_cons, List.filter_cons, h]
    · simp [List.find?_cons, List.filter_cons, h, ih]

/-- Members of a declaration context carry that context id. -/
theorem mem_ctxMembers_ctxId (C : ASTContext) (i : Nat) (d : Decl)
    (h : d ∈ ctxMembers C i) : d.ctxId = some i := by
  unfold ctxMembers at h
  have := List.of_mem_filter h
  simpa using this

/-- Distinct declaration ids restrict to every declaration context. -/
theorem ctxMembers_dids_nodup (C : ASTContext) (i : Nat)
    (h : (C.declTable.map (fun d => d.did)).Nodup) :
    ((ctxMembers C i).map (fun d => d.did)).Nodup := by
  unfold ctxMembers
  exact List.Nodup.sublist ((List.filter_sublist _).map _) h

/-- Dropping up to a list head with the searched identity. -/
theorem declsAfterIn_cons_self (a : Decl) (t : List Decl) (d : Decl)
    (h : a.did = d.did) : declsAfterIn (a :: t) d = t := by
  unfold declsAfterIn
  simp [List.dropWhile_cons, h]

/-- Dropping past a list head with a different identity. -/
theorem declsAfterIn_cons_ne (a : Decl) (t : List Decl) (d : Decl)
    (h : ¬(a.did = d.did)) : declsAfterIn (a :: t) d = declsAfterIn t d := by
  unfold declsAfterIn
  simp [List.dropWhile_cons, h]

/-- When the declaration ids are distinct and `d` is the `k`-th
reflectable member, the chase from the sibling after `d` finds the
`(k+1)`-st reflectable member. -/
theorem nextMember_index (l : List Decl)
    (hnd : (l.map (fun d => d.did)).Nodup) (k : Nat) (d : Decl)
    (hd : (l.filter isReflectableDecl).get? k = some d) :
    findNextMemberIn (declsAfterIn l d)
      = (l.filter isReflectableDecl).get? (k + 1) := by
  induction l generalizing k with
  | nil => simp [List.filter] at hd
  | cons a t ih =>
    rw [List.map_cons, List.nodup_cons] at hnd
    obtain ⟨ha, hnt⟩ := hnd
    by_cases pa : isReflectableDecl a
    · rw [List.filter_cons, if_pos pa] at hd ⊢
      cases k with
      | zero =>
        have had : a = d := by simpa using hd
        rw [declsAfterIn_cons_self a t d (by rw [had])]
        show t.find? isReflectableDecl = _
        rw [find_eq_filter_get0]
        simp
      | succ k =>
        have hd2 : (t.filter isReflectableDecl).get? k = some d := by
          simpa using hd
        have hdm : d ∈ t :=
          List.mem_of_mem_filter (List.get?_mem hd2)
        have hne : ¬(a.did = d.did) := by
          intro he
          exact ha (he ▸ List.mem_map_of_mem (fun x => x.did) hdm)
        rw [declsAfterIn_cons_ne a t d hne]
        simpa using ih hnt k hd2
    · rw [List.filter_cons, if_neg pa] at hd ⊢
      have hdm : d ∈ t :=
        List.mem_of_mem_filter (List.get?_mem hd)
      have hne : ¬(a.did = d.did) := by
        intro he
        exact ha (he ▸ List.mem_map_of_mem (fun x => x.did) hdm)
      rw [declsAfterIn_cons_ne a t d hne]
      exact ih hnt k hd

/-- Traversal invariant: as long as the call index does not exceed the
number of reflectable members, the `k`-th call yields the `k`-th
reflectable member wrapped as a declaration reflection, the invalid end
reflection once the index equals the count. -/
theorem traverseN_le (R : Reflection) (DC : Decl)
    (hr : getReachableDecl R = some DC)
    (hdc : isDeclContextKind DC.kind = true)
    (hnd : (R.ctx.declTable.map (fun d => d.did)).Nodup)
    (k : Nat)
    (hk : k ≤ ((ctxMembers R.ctx DC.did).filter isReflectableDecl).length) :
    traverseN R k
      = .ok (makeDeclReflection
          (((ctxMembers R.ctx DC.did).filter isReflectableDecl).get? k)) := by
  induction k with
  | zero =>
    have hrdc : getReachableDeclContext R = some DC := by
      simp [getReachableDeclContext, hr, hdc]
    show getBegin R = _
    simp only [getBegin, hrdc, getFirstMember, findNextMemberIn]
    rw [find_eq_filter_get0]
  | succ k ih =>
    have hklt : k < ((ctxMembers R.ctx DC.did).filter isReflectableDecl).length :=
      Nat.lt_of_succ_le hk
    obtain ⟨d, hd⟩ : ∃ d,
        ((ctxMembers R.ctx DC.did).filter isReflectableDecl).get? k = some d :=
      ⟨_, List.get?_eq_get hklt⟩
    have hprev := ih (Nat.le_of_lt hklt)
    show stepNext R.ctx R.hasDiag (traverseN R k) = _
    rw [hprev, hd]
    have hdm : d ∈ ctxMembers R.ctx DC.did :=
      List.mem_of_mem_filter (List.get?_mem hd)
    have hctx : d.ctxId = some DC.did := mem_ctxMembers_ctxId _ _ _ hdm
    have hreach : getReachableDecl ⟨R.ctx, .declRefl d, R.hasDiag⟩ = some d := rfl
    have hnextm : getNextMember R.ctx d
        = ((ctxMembers R.ctx DC.did).filter isReflectableDecl).get? (k + 1) := by
      simp only [getNextMember, hctx]
      exact nextMember_index _ (ctxMembers_dids_nodup _ _ hnd) k d hd
    simp [stepNext, getNext, hreach, hnextm, makeDeclReflection]

/-- Traversal invariant: past the end reflection, every further `get_next`
call fails with the not-defined diagnostic when a sink is present. -/
theorem traverseN_past_end (R : Reflection) (DC : Decl)
    (hr : getReachableDecl R = some DC)
    (hdc : isDeclContextKind DC.kind = true)
    (hnd : (R.ctx.declTable.map (fun d => d.did)).Nodup)
    (k : Nat)
    (hk : ((ctxMembers R.ctx DC.did).filter isReflectableDecl).length < k) :
    traverseN R k
      = .fail (if R.hasDiag then some .note_reflection_not_defined else none) := by
  induction k with
  | zero => exact absurd hk (Nat.not_lt_zero _)
  | succ k ih =>
    show stepNext R.ctx R.hasDiag (traverseN R k) = _
    rcases Nat.lt_or_ge
        ((ctxMembers R.ctx DC.did).filter isReflectableDecl).length k with h | h
    · rw [ih h]
      rfl
    · have hke : k = ((ctxMembers R.ctx DC.did).filter isReflectableDecl).length :=
        Nat.le_antisymm h (Nat.lt_succ_iff.mp hk)
      have hnone :
          ((ctxMembers R.ctx DC.did).filter isReflectableDecl).get? k = none := by
        rw [hke]
        exact List.get?_len_le (Nat.le_refl _)
      rw [traverseN_le R DC hr hdc hnd k (Nat.le_of_eq hke), hnone]
      rfl

/-- C2 (amended): for a reflection reaching a scope, the `k`-th traversal
call yields the `k`-th reflectable member as a valid declaration
reflection while `k` is below the reflectable-member count, the call at
the count yields the invalid end reflection as a successful result, and
every later call fails (the end value has no reachable declaration);
`get_begin` fails when the reachable entity is not a scope or nothing is
reachable.  (The original claim instead asserts that calls after the end
keep succeeding with an invalid reflection; the counterexample refutes
that.) -/
theorem member_traversal_protocol (R : Reflection) :
    (∀ DC, getReachableDecl R = some DC → isDeclContextKind DC.kind = true →
      (R.ctx.declTable.map (fun d => d.did)).Nodup →
        (∀ k (hk : k < ((ctxMembers R.ctx DC.did).filter isReflectableDecl).length),
          traverseN R k = .ok (.declRefl
            (((ctxMembers R.ctx DC.did).filter isReflectableDecl).get ⟨k, hk⟩)))
      ∧ traverseN R ((ctxMembers R.ctx DC.did).filter isReflectableDecl).length
          = .ok (.invalidRefl none)
      ∧ (∀ k, ((ctxMembers R.ctx DC.did).filter isReflectableDecl).length < k →
          traverseN R k
            = .fail (if R.hasDiag then some .note_reflection_not_defined else none)))
  ∧ (∀ D, getReachableDecl R = some D → isDeclContextKind D.kind = false →
      getBegin R = Error R)
  ∧ (getReachableDecl R = none → getBegin R = Error R) := by
  refine ⟨?_, ?_, ?_⟩
  · intro DC hr hdc hnd
    refine ⟨?_, ?_, ?_⟩
    · intro k hk
      rw [traverseN_le R DC hr hdc hnd k (Nat.le_of_lt hk), List.get?_eq_get hk]
      rfl
    · rw [traverseN_le R DC hr hdc hnd _ (Nat.le_refl _),
          List.get?_len_le (Nat.le_refl _)]
      rfl
    · intro k hk
      exact traverseN_past_end R DC hr hdc hnd k hk
  · intro D hD hkind
    simp [getBegin, getReachableDeclContext, hD, hkind]
  · intro h
    simp [getBegin, getReachableDeclContext, h]

/-- C2 counterexample: in the scope with two reflectable members the
second `get_next` call (made on the last member) yields the invalid end
reflection successfully, but the next call, made on that end value, fails
instead of remaining an invalid success. -/
theorem traversal_end_value_next_fails :
    traverseN ⟨ctx0, .declRefl rec0, false⟩ 2 = .ok (.invalidRefl none)
  ∧ traverseN ⟨ctx0, .declRefl rec0, false⟩ 3 = .fail none := by
  constructor
  · decide
  · decide

/-- C2 witness. -/
theorem member_traversal_protocol_witness :
    traverseN ⟨ctx0, .declRefl rec0, false⟩ 1 = .ok (.declRefl memB) := by
  have h := ((member_traversal_protocol ⟨ctx0, .declRefl rec0, false⟩).1 rec0
    (by decide) (by decide) (by decide)).1 1 (by decide)
  rw [h]
  decide

end ClangReflection
